import Mathlib

set_option maxRecDepth 100000

/-!
Verification of the ansi_colours true-colour ↔ ANSI-256 palette converter.

The development shallowly embeds `src/ansi256.c` over `Nat` (machine
`uint8_t`/`uint32_t` values are naturals below the relevant power of two;
the one signed computation, `distance`, is embedded over `Int`).  Channel
extraction macros `R`, `G`, `B`, the two conversion functions, the three
per-channel cube quantizers, the luminance estimate and the distance
heuristic are translated one-to-one from the C source.
-/

namespace AnsiColours

/-- Channel macro `R(c) = ((c) >> 16) & 0xff` from the source. -/
def R (c : Nat) : Nat := (c >>> 16) % 256

/-- Channel macro `G(c) = ((c) >> 8) & 0xff` from the source. -/
def G (c : Nat) : Nat := (c >>> 8) % 256

/-- Channel macro `B(c) = (c) & 0xff` from the source. -/
def B (c : Nat) : Nat := c % 256

/-- The 16 system colours as used by default by xterm (`system_colours`
static table in `rgb_from_ansi256`). -/
def system_colours : List Nat :=
  [0x000000, 0xce0000, 0x00ce00, 0xcece00,
   0x0000ee, 0xce00ce, 0x00cece, 0xefefef,
   0x7f7f7f, 0xff0000, 0x00ff00, 0xffff00,
   0x5c5cff, 0xff00ff, 0x00ffff, 0xffffff]

/-- The 6-entry cube level table of `cube_value`; the C function indexes
`values[idx]` without a bounds check (its contract requires `idx < 6`).
The total embedding returns the C value on `idx < 6`; `cube_value_opt`
below models the access checked. -/
def cube_value (idx : Nat) : Nat :=
  [0, 95, 135, 175, 215, 255].getD idx 0

/-- `rgb_from_ansi256` from the source.  The C parameter is `uint8_t`, so
the embedding reduces its argument mod 256 first; the three branches
mirror the source (`index & 0xf0` being zero is `index < 16` for a byte).
-/
def rgb_from_ansi256 (index0 : Nat) : Nat :=
  let index := index0 % 256
  if index < 16 then
    system_colours.getD index 0
  else if index < 232 then
    let i := index - 16
    (cube_value (i / 36) <<< 16) ||| (cube_value (i / 6 % 6) <<< 8) |||
      cube_value (i % 6)
  else
    ((index - 232) * 10 + 8) * 0x010101

/-- The 256-entry grey-approximation table (`ansi256_from_grey` static
table in `ansi256_from_rgb`). -/
def ansi256_from_grey : List Nat :=
  [ 16,  16,  16,  16,  16, 232, 232, 232,
   232, 232, 232, 232, 232, 232, 233, 233,
   233, 233, 233, 233, 233, 233, 233, 233,
   234, 234, 234, 234, 234, 234, 234, 234,
   234, 234, 235, 235, 235, 235, 235, 235,
   235, 235, 235, 235, 236, 236, 236, 236,
   236, 236, 236, 236, 236, 236, 237, 237,
   237, 237, 237, 237, 237, 237, 237, 237,
   238, 238, 238, 238, 238, 238, 238, 238,
   238, 238, 239, 239, 239, 239, 239, 239,
   239, 239, 239, 239, 240, 240, 240, 240,
   240, 240, 240, 240,  59,  59,  59,  59,
    59, 241, 241, 241, 241, 241, 241, 241,
   242, 242, 242, 242, 242, 242, 242, 242,
   242, 242, 243, 243, 243, 243, 243, 243,
   243, 243, 243, 244, 244, 244, 244, 244,
   244, 244, 244, 244, 102, 102, 102, 102,
   102, 245, 245, 245, 245, 245, 245, 246,
   246, 246, 246, 246, 246, 246, 246, 246,
   246, 247, 247, 247, 247, 247, 247, 247,
   247, 247, 247, 248, 248, 248, 248, 248,
   248, 248, 248, 248, 145, 145, 145, 145,
   145, 249, 249, 249, 249, 249, 249, 250,
   250, 250, 250, 250, 250, 250, 250, 250,
   250, 251, 251, 251, 251, 251, 251, 251,
   251, 251, 251, 252, 252, 252, 252, 252,
   252, 252, 252, 252, 188, 188, 188, 188,
   188, 253, 253, 253, 253, 253, 253, 254,
   254, 254, 254, 254, 254, 254, 254, 254,
   254, 255, 255, 255, 255, 255, 255, 255,
   255, 255, 255, 255, 255, 255, 255, 231,
   231, 231, 231, 231, 231, 231, 231, 231]

/-- `cube_index_red` from the source: the `CUBE_THRESHOLDS(38, 115, 155,
196, 235)` ladder with `IDX(i, v) = (((i * 36 + 16) << 24) | (v << 16))`.
-/
def cube_index_red (v : Nat) : Nat :=
  if v < 38 then ((0 * 36 + 16) <<< 24) ||| (0 <<< 16)
  else if v < 115 then ((1 * 36 + 16) <<< 24) ||| (95 <<< 16)
  else if v < 155 then ((2 * 36 + 16) <<< 24) ||| (135 <<< 16)
  else if v < 196 then ((3 * 36 + 16) <<< 24) ||| (175 <<< 16)
  else if v < 235 then ((4 * 36 + 16) <<< 24) ||| (215 <<< 16)
  else ((5 * 36 + 16) <<< 24) ||| (255 <<< 16)

/-- `cube_index_green` from the source: thresholds `(36, 116, 154, 195,
235)` with `IDX(i, v) = (((i * 6) << 24) | (v << 8))`. -/
def cube_index_green (v : Nat) : Nat :=
  if v < 36 then ((0 * 6) <<< 24) ||| (0 <<< 8)
  else if v < 116 then ((1 * 6) <<< 24) ||| (95 <<< 8)
  else if v < 154 then ((2 * 6) <<< 24) ||| (135 <<< 8)
  else if v < 195 then ((3 * 6) <<< 24) ||| (175 <<< 8)
  else if v < 235 then ((4 * 6) <<< 24) ||| (215 <<< 8)
  else ((5 * 6) <<< 24) ||| (255 <<< 8)

/-- `cube_index_blue` from the source: thresholds `(35, 115, 155, 195,
235)` with `IDX(i, v) = ((i << 24) | v)`. -/
def cube_index_blue (v : Nat) : Nat :=
  if v < 35 then (0 <<< 24) ||| 0
  else if v < 115 then (1 <<< 24) ||| 95
  else if v < 155 then (2 <<< 24) ||| 135
  else if v < 195 then (3 <<< 24) ||| 175
  else if v < 235 then (4 <<< 24) ||| 215
  else (5 <<< 24) ||| 255

/-- `luminance` from the source: the fixed-point weighted channel sum
shifted right by 24.  The C computation is in `uint32_t`; the largest
possible sum is `255 * 2^24 < 2^32`, so the `Nat` value coincides. -/
def luminance (rgb : Nat) : Nat :=
  (3568058 * R rgb + 11998262 * G rgb + 1210896 * B rgb) >>> 24

/-- `distance` from the source.  The C computation is in `int32_t`, so the
embedding is over `Int`; `distance_props` below shows the value is
non-negative and below `2^31`, hence the C arithmetic never overflows and
the final conversion to `uint32_t` is the identity. -/
def distance (x y : Nat) : Int :=
  let r_sum : Int := (R x : Int) + (R y : Int)
  let r : Int := (R x : Int) - (R y : Int)
  let g : Int := (G x : Int) - (G y : Int)
  let b : Int := (B x : Int) - (B y : Int)
  (1024 + r_sum) * r * r + 2048 * g * g + (1534 - r_sum) * b * b

/-- `ansi256_from_rgb` from the source: grey fast path, then the
grey-candidate / cube-candidate comparison.  The `uint32_t` comparison of
the two distances coincides with the `Int` comparison because both values
are non-negative (see `distance_props`). -/
def ansi256_from_rgb (rgb : Nat) : Nat :=
  if R rgb = G rgb ∧ G rgb = B rgb then
    ansi256_from_grey.getD (rgb % 256) 0
  else
    let grey_index := ansi256_from_grey.getD (luminance rgb) 0
    let grey_distance := distance rgb (rgb_from_ansi256 grey_index)
    let cube := cube_index_red (R rgb) + cube_index_green (G rgb) +
      cube_index_blue (B rgb)
    if distance rgb cube < grey_distance then cube >>> 24 else grey_index

/-- Red-channel cube digit determined by the `cube_index_red` threshold
ladder (the `i` argument of its `IDX` macro uses). -/
def redDigit (v : Nat) : Nat :=
  if v < 38 then 0
  else if v < 115 then 1
  else if v < 155 then 2
  else if v < 196 then 3
  else if v < 235 then 4
  else 5

/-- Green-channel cube digit determined by the `cube_index_green`
threshold ladder. -/
def greenDigit (v : Nat) : Nat :=
  if v < 36 then 0
  else if v < 116 then 1
  else if v < 154 then 2
  else if v < 195 then 3
  else if v < 235 then 4
  else 5

/-- Blue-channel cube digit determined by the `cube_index_blue` threshold
ladder. -/
def blueDigit (v : Nat) : Nat :=
  if v < 35 then 0
  else if v < 115 then 1
  else if v < 155 then 2
  else if v < 195 then 3
  else if v < 235 then 4
  else 5

/-- Bounds-checked variant of `cube_value`: `none` exactly when the C
table access `values[idx]` would be out of bounds. -/
def cube_value_opt (idx : Nat) : Option Nat :=
  [0, 95, 135, 175, 215, 255][idx]?

/-- Bounds-checked variant of `rgb_from_ansi256`: every table access of
the C function is replaced by a checked lookup that yields `none` when the
C access would be out of bounds. -/
def rgb_from_ansi256_opt (index0 : Nat) : Option Nat :=
  let index := index0 % 256
  if index < 16 then
    system_colours[index]?
  else if index < 232 then
    let i := index - 16
    do
      let r ← cube_value_opt (i / 36)
      let g ← cube_value_opt (i / 6 % 6)
      let b ← cube_value_opt (i % 6)
      pure ((r <<< 16) ||| (g <<< 8) ||| b)
  else
    some (((index - 232) * 10 + 8) * 0x010101)

/-- Bounds-checked variant of `ansi256_from_rgb`: the grey-table lookups
and the palette reconstruction are checked, yielding `none` when a C table
access would be out of bounds. -/
def ansi256_from_rgb_opt (rgb : Nat) : Option Nat :=
  if R rgb = G rgb ∧ G rgb = B rgb then
    ansi256_from_grey[rgb % 256]?
  else do
    let grey_index ← ansi256_from_grey[luminance rgb]?
    let grey_rgb ← rgb_from_ansi256_opt grey_index
    let grey_distance := distance rgb grey_rgb
    let cube := cube_index_red (R rgb) + cube_index_green (G rgb) +
      cube_index_blue (B rgb)
    pure (if distance rgb cube < grey_distance then cube >>> 24
          else grey_index)

end AnsiColours

namespace AnsiColours

/-- C3: for every palette index in `[16, 231]`, `rgb_from_ansi256` maps
the three base-6 digits of `index - 16` through the cube-level table
`{0, 95, 135, 175, 215, 255}` and composes the resulting bytes with red
highest; in particular index 196 yields `0xff0000`. -/
theorem cube_region_reconstruction (index : Nat) (h2 : index < 232)
    (h1 : 16 ≤ index) :
    rgb_from_ansi256 index =
      cube_value ((index - 16) / 36) * 2 ^ 16 +
        cube_value ((index - 16) / 6 % 6) * 2 ^ 8 +
        cube_value ((index - 16) % 6) ∧
    rgb_from_ansi256 196 = 0xff0000 := by
  revert h1
  revert h2
  revert index
  decide

/-- Witness for C3 at index 196. -/
theorem cube_region_reconstruction_witness :
    rgb_from_ansi256 196 =
      cube_value ((196 - 16) / 36) * 2 ^ 16 +
        cube_value ((196 - 16) / 6 % 6) * 2 ^ 8 +
        cube_value ((196 - 16) % 6) ∧
    rgb_from_ansi256 196 = 0xff0000 :=
  cube_region_reconstruction 196 (by decide) (by decide)

/-- C4: for every palette index in `[232, 255]`, `rgb_from_ansi256`
returns the grey with all three channels equal to `(index - 232) * 10 + 8`;
in particular 232 yields `0x080808` and 255 yields `0xeeeeee`. -/
theorem grey_ramp_reconstruction (index : Nat) (h2 : index < 256)
    (h1 : 232 ≤ index) :
    rgb_from_ansi256 index = ((index - 232) * 10 + 8) * 0x010101 ∧
    R (rgb_from_ansi256 index) = (index - 232) * 10 + 8 ∧
    G (rgb_from_ansi256 index) = (index - 232) * 10 + 8 ∧
    B (rgb_from_ansi256 index) = (index - 232) * 10 + 8 ∧
    rgb_from_ansi256 232 = 0x080808 ∧
    rgb_from_ansi256 255 = 0xeeeeee := by
  revert h1
  revert h2
  revert index
  decide

/-- Witness for C4 at index 240. -/
theorem grey_ramp_reconstruction_witness :
    rgb_from_ansi256 240 = ((240 - 232) * 10 + 8) * 0x010101 ∧
    R (rgb_from_ansi256 240) = (240 - 232) * 10 + 8 ∧
    G (rgb_from_ansi256 240) = (240 - 232) * 10 + 8 ∧
    B (rgb_from_ansi256 240) = (240 - 232) * 10 + 8 ∧
    rgb_from_ansi256 232 = 0x080808 ∧
    rgb_from_ansi256 255 = 0xeeeeee :=
  grey_ramp_reconstruction 240 (by decide) (by decide)

/-- C5: for every palette index in `[0, 15]`, `rgb_from_ansi256` returns
the corresponding entry of the fixed 16-entry system-colour table; in
particular 0 yields `0x000000`, 7 yields `0xefefef` and 15 yields
`0xffffff`. -/
theorem system_region_reconstruction (index : Nat) (h : index < 16) :
    rgb_from_ansi256 index = system_colours.getD index 0 ∧
    rgb_from_ansi256 0 = 0x000000 ∧
    rgb_from_ansi256 7 = 0xefefef ∧
    rgb_from_ansi256 15 = 0xffffff := by
  revert h
  revert index
  decide

/-- Witness for C5 at index 7. -/
theorem system_region_reconstruction_witness :
    rgb_from_ansi256 7 = system_colours.getD 7 0 ∧
    rgb_from_ansi256 0 = 0x000000 ∧
    rgb_from_ansi256 7 = 0xefefef ∧
    rgb_from_ansi256 15 = 0xffffff :=
  system_region_reconstruction 7 (by decide)

/-- C7: the reverse conversion maps the forward images of pure red, black
and white back to palette indices 196, 16 and 231; the `0xff0000` case
goes through the full non-grey path (luminance lookup, cube quantization
and distance comparison). -/
theorem reverse_of_forward_corners :
    ansi256_from_rgb 0xff0000 = 196 ∧
    ansi256_from_rgb 0x000000 = 16 ∧
    ansi256_from_rgb 0xffffff = 231 := by
  decide

/-- C2: `ansi256_from_rgb` on an exact grey `r * 0x010101` returns the
grey-approximation table entry at position `r`, via the fast path that
never consults luminance, cube quantization or the distance comparison. -/
theorem grey_fast_path (r : Nat) (h : r < 256) :
    ansi256_from_rgb (r * 0x010101) = ansi256_from_grey.getD r 0 := by
  revert h
  revert r
  decide

/-- Witness for C2 at grey level 128. -/
theorem grey_fast_path_witness :
    ansi256_from_rgb (128 * 0x010101) = ansi256_from_grey.getD 128 0 :=
  grey_fast_path 128 (by decide)

/-- Every channel extraction is below 256. -/
theorem R_lt (c : Nat) : R c < 256 := by
  unfold R; exact Nat.mod_lt _ (by norm_num)

/-- Every channel extraction is below 256. -/
theorem G_lt (c : Nat) : G c < 256 := by
  unfold G; exact Nat.mod_lt _ (by norm_num)

/-- Every channel extraction is below 256. -/
theorem B_lt (c : Nat) : B c < 256 := by
  unfold B; exact Nat.mod_lt _ (by norm_num)

/-- The luminance estimate always fits in a byte: the three coefficients
sum to exactly `2^24`, so the weighted sum is below `256 * 2^24`. -/
theorem luminance_lt (rgb : Nat) : luminance rgb < 256 := by
  have h1 := R_lt rgb
  have h2 := G_lt rgb
  have h3 := B_lt rgb
  unfold luminance
  rw [Nat.shiftRight_eq_div_pow]
  omega

/-- Every entry of the grey-approximation table is below 256. -/
theorem grey_table_lt (i : Nat) (h : i < 256) :
    ansi256_from_grey.getD i 0 < 256 := by
  revert h
  revert i
  decide

/-- Every entry of the grey-approximation table is at least 16. -/
theorem grey_table_ge (i : Nat) (h : i < 256) :
    16 ≤ ansi256_from_grey.getD i 0 := by
  revert h
  revert i
  decide

/-- `cube_index_red` packs the red digit (times 36, plus the cube base
16) in the top byte and the red cube level in the third byte. -/
theorem cube_index_red_eq (v : Nat) :
    cube_index_red v =
      (redDigit v * 36 + 16) * 2 ^ 24 + cube_value (redDigit v) * 2 ^ 16 := by
  unfold cube_index_red redDigit
  split_ifs <;> decide

/-- `cube_index_green` packs the green digit (times 6) in the top byte
and the green cube level in the second byte. -/
theorem cube_index_green_eq (v : Nat) :
    cube_index_green v =
      greenDigit v * 6 * 2 ^ 24 + cube_value (greenDigit v) * 2 ^ 8 := by
  unfold cube_index_green greenDigit
  split_ifs <;> decide

/-- `cube_index_blue` packs the blue digit in the top byte and the blue
cube level in the low byte. -/
theorem cube_index_blue_eq (v : Nat) :
    cube_index_blue v = blueDigit v * 2 ^ 24 + cube_value (blueDigit v) := by
  unfold cube_index_blue blueDigit
  split_ifs <;> decide

/-- Cube digits are at most 5. -/
theorem redDigit_le (v : Nat) : redDigit v ≤ 5 := by
  unfold redDigit; split_ifs <;> decide

/-- Cube digits are at most 5. -/
theorem greenDigit_le (v : Nat) : greenDigit v ≤ 5 := by
  unfold greenDigit; split_ifs <;> decide

/-- Cube digits are at most 5. -/
theorem blueDigit_le (v : Nat) : blueDigit v ≤ 5 := by
  unfold blueDigit; split_ifs <;> decide

/-- Cube levels are bytes. -/
theorem cube_value_le (d : Nat) (h : d < 6) : cube_value d ≤ 255 := by
  revert h
  revert d
  decide

/-- The sum of the three packed quantizer results splits into the palette
index `16 + 36r + 6g + b` in the top byte and the reconstructed colour in
the low 24 bits. -/
theorem cube_sum_eq (x y z : Nat) :
    cube_index_red x + cube_index_green y + cube_index_blue z =
      (16 + 36 * redDigit x + 6 * greenDigit y + blueDigit z) * 2 ^ 24 +
        (cube_value (redDigit x) * 2 ^ 16 + cube_value (greenDigit y) * 2 ^ 8 +
          cube_value (blueDigit z)) := by
  rw [cube_index_red_eq, cube_index_green_eq, cube_index_blue_eq]
  ring

/-- The low 24 bits of the packed cube candidate are indeed below
`2^24`. -/
theorem cube_low_lt (x y z : Nat) :
    cube_value (redDigit x) * 2 ^ 16 + cube_value (greenDigit y) * 2 ^ 8 +
      cube_value (blueDigit z) < 2 ^ 24 := by
  have h1 := cube_value_le _ (Nat.lt_succ_of_le (redDigit_le x))
  have h2 := cube_value_le _ (Nat.lt_succ_of_le (greenDigit_le y))
  have h3 := cube_value_le _ (Nat.lt_succ_of_le (blueDigit_le z))
  omega

/-- Shifting the packed cube candidate right by 24 recovers the palette
index. -/
theorem cube_shift (x y z : Nat) :
    (cube_index_red x + cube_index_green y + cube_index_blue z) >>> 24 =
      16 + 36 * redDigit x + 6 * greenDigit y + blueDigit z := by
  rw [cube_sum_eq, Nat.shiftRight_eq_div_pow]
  have := cube_low_lt x y z
  omega

/-- The channel extractions ignore anything above bit 23. -/
theorem channels_high (hi low : Nat) :
    R (hi * 2 ^ 24 + low) = R low ∧ G (hi * 2 ^ 24 + low) = G low ∧
      B (hi * 2 ^ 24 + low) = B low := by
  unfold R G B
  simp only [Nat.shiftRight_eq_div_pow]
  omega

/-- `distance` depends on its second argument only through the three
channel extractions. -/
theorem distance_congr (x y y' : Nat) (hR : R y = R y') (hG : G y = G y')
    (hB : B y = B y') : distance x y = distance x y' := by
  unfold distance
  rw [hR, hG, hB]

/-- Arithmetic form of the cube-region branch of `rgb_from_ansi256`. -/
theorem rgb_cube_arith (index : Nat) (h2 : index < 232) (h1 : 16 ≤ index) :
    rgb_from_ansi256 index =
      cube_value ((index - 16) / 36) * 2 ^ 16 +
        cube_value ((index - 16) / 6 % 6) * 2 ^ 8 +
        cube_value ((index - 16) % 6) := by
  revert h1
  revert h2
  revert index
  decide

/-- Reconstructing the palette index built from three cube digits yields
exactly the packed cube levels. -/
theorem rgb_of_cube_index (x y z : Nat) :
    rgb_from_ansi256 (16 + 36 * redDigit x + 6 * greenDigit y + blueDigit z) =
      cube_value (redDigit x) * 2 ^ 16 + cube_value (greenDigit y) * 2 ^ 8 +
        cube_value (blueDigit z) := by
  have hr := redDigit_le x
  have hg := greenDigit_le y
  have hb := blueDigit_le z
  have e1 : (16 + 36 * redDigit x + 6 * greenDigit y + blueDigit z - 16) / 36 =
      redDigit x := by omega
  have e2 : (16 + 36 * redDigit x + 6 * greenDigit y + blueDigit z - 16) / 6 % 6 =
      greenDigit y := by omega
  have e3 : (16 + 36 * redDigit x + 6 * greenDigit y + blueDigit z - 16) % 6 =
      blueDigit z := by omega
  rw [rgb_cube_arith _ (by omega) (by omega), e1, e2, e3]

/-- The distance from any colour to the packed cube candidate equals the
distance to the reconstruction of the cube candidate's palette index. -/
theorem distance_cube (rgb : Nat) :
    distance rgb
        (cube_index_red (R rgb) + cube_index_green (G rgb) +
          cube_index_blue (B rgb)) =
      distance rgb
        (rgb_from_ansi256
          (16 + 36 * redDigit (R rgb) + 6 * greenDigit (G rgb) +
            blueDigit (B rgb))) := by
  rw [cube_sum_eq, rgb_of_cube_index]
  obtain ⟨hR, hG, hB⟩ := channels_high
    (16 + 36 * redDigit (R rgb) + 6 * greenDigit (G rgb) + blueDigit (B rgb))
    (cube_value (redDigit (R rgb)) * 2 ^ 16 +
      cube_value (greenDigit (G rgb)) * 2 ^ 8 + cube_value (blueDigit (B rgb)))
  exact distance_congr _ _ _ hR hG hB

/-- C6: the distance heuristic vanishes on equal colours, is symmetric,
and the signed computation is non-negative and below `2^31`, so it never
overflows 32-bit signed arithmetic for 8-bit channels. -/
theorem distance_props (x y : Nat) (_hx : x < 2 ^ 24) (_hy : y < 2 ^ 24) :
    distance x x = 0 ∧ distance x y = distance y x ∧
      0 ≤ distance x y ∧ distance x y < 2 ^ 31 := by
  have hRx : ((R x : Int)) < 256 := by exact_mod_cast R_lt x
  have hRy : ((R y : Int)) < 256 := by exact_mod_cast R_lt y
  have hGx : ((G x : Int)) < 256 := by exact_mod_cast G_lt x
  have hGy : ((G y : Int)) < 256 := by exact_mod_cast G_lt y
  have hBx : ((B x : Int)) < 256 := by exact_mod_cast B_lt x
  have hBy : ((B y : Int)) < 256 := by exact_mod_cast B_lt y
  have hRx0 : (0 : Int) ≤ (R x : Int) := Int.natCast_nonneg _
  have hRy0 : (0 : Int) ≤ (R y : Int) := Int.natCast_nonneg _
  have hGx0 : (0 : Int) ≤ (G x : Int) := Int.natCast_nonneg _
  have hGy0 : (0 : Int) ≤ (G y : Int) := Int.natCast_nonneg _
  have hBx0 : (0 : Int) ≤ (B x : Int) := Int.natCast_nonneg _
  have hBy0 : (0 : Int) ≤ (B y : Int) := Int.natCast_nonneg _
  simp only [distance]
  refine ⟨by ring, by ring, ?_, ?_⟩
  · have h1 : (0 : Int) ≤ (1024 + ((R x : Int) + (R y : Int))) *
        (((R x : Int) - (R y : Int)) * ((R x : Int) - (R y : Int))) :=
      mul_nonneg (by linarith) (mul_self_nonneg _)
    have h2 : (0 : Int) ≤ 2048 *
        (((G x : Int) - (G y : Int)) * ((G x : Int) - (G y : Int))) :=
      mul_nonneg (by norm_num) (mul_self_nonneg _)
    have h3 : (0 : Int) ≤ (1534 - ((R x : Int) + (R y : Int))) *
        (((B x : Int) - (B y : Int)) * ((B x : Int) - (B y : Int))) :=
      mul_nonneg (by linarith) (mul_self_nonneg _)
    nlinarith [h1, h2, h3]
  · have hr2 : ((R x : Int) - (R y : Int)) * ((R x : Int) - (R y : Int)) ≤
        65025 := by
      nlinarith [mul_nonneg
        (show (0 : Int) ≤ 255 - ((R x : Int) - (R y : Int)) by linarith)
        (show (0 : Int) ≤ 255 + ((R x : Int) - (R y : Int)) by linarith)]
    have hg2 : ((G x : Int) - (G y : Int)) * ((G x : Int) - (G y : Int)) ≤
        65025 := by
      nlinarith [mul_nonneg
        (show (0 : Int) ≤ 255 - ((G x : Int) - (G y : Int)) by linarith)
        (show (0 : Int) ≤ 255 + ((G x : Int) - (G y : Int)) by linarith)]
    have hb2 : ((B x : Int) - (B y : Int)) * ((B x : Int) - (B y : Int)) ≤
        65025 := by
      nlinarith [mul_nonneg
        (show (0 : Int) ≤ 255 - ((B x : Int) - (B y : Int)) by linarith)
        (show (0 : Int) ≤ 255 + ((B x : Int) - (B y : Int)) by linarith)]
    have ha : (0 : Int) ≤ ((R x : Int) + (R y : Int)) *
        (((B x : Int) - (B y : Int)) * ((B x : Int) - (B y : Int))) :=
      mul_nonneg (by linarith) (mul_self_nonneg _)
    have hc : (0 : Int) ≤ (510 - ((R x : Int) + (R y : Int))) *
        (((R x : Int) - (R y : Int)) * ((R x : Int) - (R y : Int))) :=
      mul_nonneg (by linarith) (mul_self_nonneg _)
    linarith [hr2, hg2, hb2, ha, hc]

/-- Witness for C6 at two concrete colours. -/
theorem distance_props_witness :
    distance 0x123456 0x123456 = 0 ∧
      distance 0x123456 0x654321 = distance 0x654321 0x123456 ∧
      0 ≤ distance 0x123456 0x654321 ∧ distance 0x123456 0x654321 < 2 ^ 31 :=
  distance_props 0x123456 0x654321 (by decide) (by decide)

/-- C9: the packed cube candidate is self-consistent: its top byte is a
palette index in `[16, 231]`, its low 24 bits are exactly the palette
reconstruction of that index, and hence the distance taken against the
packed value equals the distance against the reconstructed colour. -/
theorem cube_candidate_packed (rgb : Nat) (_h : rgb < 2 ^ 24) :
    16 ≤ (cube_index_red (R rgb) + cube_index_green (G rgb) +
        cube_index_blue (B rgb)) >>> 24 ∧
    (cube_index_red (R rgb) + cube_index_green (G rgb) +
        cube_index_blue (B rgb)) >>> 24 ≤ 231 ∧
    (cube_index_red (R rgb) + cube_index_green (G rgb) +
        cube_index_blue (B rgb)) % 2 ^ 24 =
      rgb_from_ansi256
        ((cube_index_red (R rgb) + cube_index_green (G rgb) +
          cube_index_blue (B rgb)) >>> 24) ∧
    distance rgb
        (cube_index_red (R rgb) + cube_index_green (G rgb) +
          cube_index_blue (B rgb)) =
      distance rgb
        (rgb_from_ansi256
          ((cube_index_red (R rgb) + cube_index_green (G rgb) +
            cube_index_blue (B rgb)) >>> 24)) := by
  have hr := redDigit_le (R rgb)
  have hg := greenDigit_le (G rgb)
  have hb := blueDigit_le (B rgb)
  rw [cube_shift]
  refine ⟨by omega, by omega, ?_, distance_cube rgb⟩
  rw [cube_sum_eq, rgb_of_cube_index]
  have := cube_low_lt (R rgb) (G rgb) (B rgb)
  omega

/-- Witness for C9 at a concrete non-grey colour. -/
theorem cube_candidate_packed_witness :
    16 ≤ (cube_index_red (R 0xff8000) + cube_index_green (G 0xff8000) +
        cube_index_blue (B 0xff8000)) >>> 24 ∧
    (cube_index_red (R 0xff8000) + cube_index_green (G 0xff8000) +
        cube_index_blue (B 0xff8000)) >>> 24 ≤ 231 ∧
    (cube_index_red (R 0xff8000) + cube_index_green (G 0xff8000) +
        cube_index_blue (B 0xff8000)) % 2 ^ 24 =
      rgb_from_ansi256
        ((cube_index_red (R 0xff8000) + cube_index_green (G 0xff8000) +
          cube_index_blue (B 0xff8000)) >>> 24) ∧
    distance 0xff8000
        (cube_index_red (R 0xff8000) + cube_index_green (G 0xff8000) +
          cube_index_blue (B 0xff8000)) =
      distance 0xff8000
        (rgb_from_ansi256
          ((cube_index_red (R 0xff8000) + cube_index_green (G 0xff8000) +
            cube_index_blue (B 0xff8000)) >>> 24)) :=
  cube_candidate_packed 0xff8000 (by decide)

/-- C1: on every non-grey 24-bit input, `ansi256_from_rgb` returns the
cube candidate index `16 + 36r + 6g + b` exactly when the candidate's
reconstructed colour is strictly closer to the input than the
reconstruction of the grey candidate picked by the luminance lookup, and
the grey candidate's index otherwise (ties to grey). -/
theorem nongrey_decision (rgb : Nat) (_h24 : rgb < 2 ^ 24)
    (hng : ¬(R rgb = G rgb ∧ G rgb = B rgb)) :
    ansi256_from_rgb rgb =
      if distance rgb
            (rgb_from_ansi256
              (16 + 36 * redDigit (R rgb) + 6 * greenDigit (G rgb) +
                blueDigit (B rgb))) <
          distance rgb
            (rgb_from_ansi256
              (ansi256_from_grey.getD
                ((3568058 * R rgb + 11998262 * G rgb + 1210896 * B rgb) >>> 24)
                0))
      then 16 + 36 * redDigit (R rgb) + 6 * greenDigit (G rgb) +
        blueDigit (B rgb)
      else ansi256_from_grey.getD
        ((3568058 * R rgb + 11998262 * G rgb + 1210896 * B rgb) >>> 24) 0 := by
  have hd := distance_cube rgb
  have hs := cube_shift (R rgb) (G rgb) (B rgb)
  simp only [ansi256_from_rgb]
  rw [if_neg hng, hd, hs]
  simp only [luminance]

/-- Witness for C1 at pure red. -/
theorem nongrey_decision_witness :
    ansi256_from_rgb 0xff0000 =
      if distance 0xff0000
            (rgb_from_ansi256
              (16 + 36 * redDigit (R 0xff0000) + 6 * greenDigit (G 0xff0000) +
                blueDigit (B 0xff0000))) <
          distance 0xff0000
            (rgb_from_ansi256
              (ansi256_from_grey.getD
                ((3568058 * R 0xff0000 + 11998262 * G 0xff0000 +
                  1210896 * B 0xff0000) >>> 24) 0))
      then 16 + 36 * redDigit (R 0xff0000) + 6 * greenDigit (G 0xff0000) +
        blueDigit (B 0xff0000)
      else ansi256_from_grey.getD
        ((3568058 * R 0xff0000 + 11998262 * G 0xff0000 +
          1210896 * B 0xff0000) >>> 24) 0 :=
  nongrey_decision 0xff0000 (by decide) (by decide)

/-- C10: `ansi256_from_rgb` never returns a system-colour index: every
result is at least 16, because every grey-table entry is at least 16 and
every cube candidate index is at least 16. -/
theorem result_ge_sixteen (rgb : Nat) (_h : rgb < 2 ^ 24) :
    16 ≤ ansi256_from_rgb rgb := by
  have hlum := luminance_lt rgb
  have hr := redDigit_le (R rgb)
  have hg := greenDigit_le (G rgb)
  have hb := blueDigit_le (B rgb)
  simp only [ansi256_from_rgb]
  split_ifs with h1 h2
  · exact grey_table_ge _ (Nat.mod_lt _ (by norm_num))
  · rw [cube_shift]
    omega
  · exact grey_table_ge _ hlum

/-- Witness for C10 at the system grey `0x7f7f7f`. -/
theorem result_ge_sixteen_witness : 16 ≤ ansi256_from_rgb 0x7f7f7f :=
  result_ge_sixteen 0x7f7f7f (by decide)

/-- The checked grey-table lookup succeeds on every byte index. -/
theorem grey_table_lookup (i : Nat) (h : i < 256) :
    ansi256_from_grey[i]? = some (ansi256_from_grey.getD i 0) := by
  revert h
  revert i
  decide

/-- The checked `rgb_from_ansi256` agrees with the total embedding on
every palette index: every internal table access is in bounds. -/
theorem rgb_opt_agrees (index : Nat) (h : index < 256) :
    rgb_from_ansi256_opt index = some (rgb_from_ansi256 index) := by
  revert h
  revert index
  decide

/-- The checked `ansi256_from_rgb` agrees with the total embedding on
every 24-bit colour: every internal table access is in bounds. -/
theorem ansi_opt_agrees (rgb : Nat) (_h : rgb < 2 ^ 24) :
    ansi256_from_rgb_opt rgb = some (ansi256_from_rgb rgb) := by
  by_cases hg : R rgb = G rgb ∧ G rgb = B rgb
  · simp only [ansi256_from_rgb_opt, ansi256_from_rgb, if_pos hg]
    exact grey_table_lookup _ (Nat.mod_lt _ (by norm_num))
  · have hlum := luminance_lt rgb
    have hgl := grey_table_lt _ hlum
    simp only [ansi256_from_rgb_opt, ansi256_from_rgb, if_neg hg]
    rw [grey_table_lookup _ hlum]
    simp only [Option.bind_eq_bind', Option.some_bind]
    rw [rgb_opt_agrees _ hgl]
    simp only [Option.some_bind]
    rfl

/-- C8: both conversion functions are total and every internal table
access — the 16-entry system table, the 256-entry grey table and the
6-entry cube-level table — stays in bounds: the bounds-checked variants
return `some` of the unchecked result on the full input ranges. -/
theorem totality_in_bounds (index rgb : Nat) (h1 : index < 256)
    (h2 : rgb < 2 ^ 24) :
    rgb_from_ansi256_opt index = some (rgb_from_ansi256 index) ∧
      ansi256_from_rgb_opt rgb = some (ansi256_from_rgb rgb) :=
  ⟨rgb_opt_agrees index h1, ansi_opt_agrees rgb h2⟩

/-- Witness for C8 at palette index 196 and colour `0xff0000`. -/
theorem totality_in_bounds_witness :
    rgb_from_ansi256_opt 196 = some (rgb_from_ansi256 196) ∧
      ansi256_from_rgb_opt 0xff0000 = some (ansi256_from_rgb 0xff0000) :=
  totality_in_bounds 196 0xff0000 (by decide) (by decide)

end AnsiColours
